import Mathlib

/-!
Shallow embedding of two adapter units of the `griptape` repository:

* `FileManager` (`src/griptape/tools/file_manager/tool.py`): loads and saves
  files under an absolute work directory.
* `TextManagerRamp` (`src/griptape/ramps/text_manager_ramp.py`): delegates
  query/summarize/save operations to an injected text-storage driver.

Python exceptions are modelled with `Except PyErr`; a method whose Lean type
is a plain value is one whose body catches every exception it can encounter,
while a method of type `Except PyErr _` can let an exception propagate to its
caller.  The filesystem is a state value (`FS`) threaded explicitly through
the disk operations; machine-level I/O failures (disk full, permissions) are
outside the model, but file-not-found is represented exactly.
-/

set_option autoImplicit false

namespace Griptape

/-- Exceptions of the Python code: the loader's `FileNotFoundError`, the
constructor's `ValueError`, and any other `Exception`. -/
inductive PyErr where
  | fileNotFound (path : String)
  | valueError (msg : String)
  | other (msg : String)
deriving DecidableEq, Repr

/-- Rendering of `str(e)` for an exception `e`, used when a caught exception
is interpolated into an error-artifact message. -/
def pyErrStr : PyErr → String
  | .fileNotFound p => p
  | .valueError m => m
  | .other m => m

/-- Modelled from the spec: the framework's tagged result wrapper type
(`griptape.artifacts`, absent from `src/`): "a tagged result value of kind
{Text, Error, Info, List}", carrying "a payload (string, error message, or
nested list of artifacts)".  `blob` carries the raw bytes loaded from a file. -/
inductive Artifact where
  | text (value : String)
  | error (value : String)
  | info (value : String)
  | blob (value : List Nat)
  | list (value : List Artifact)

/-- Whether the artifact is a `TextArtifact` (`isinstance(value, TextArtifact)`). -/
def Artifact.isText : Artifact → Bool
  | .text _ => true
  | _ => false

/-- Whether the artifact is an `ErrorArtifact`. -/
def Artifact.isError : Artifact → Bool
  | .error _ => true
  | _ => false

/-- Standard UTF-8 encoding of a single code point. -/
def utf8EncodeChar (c : Char) : List Nat :=
  let n := c.toNat
  if n < 0x80 then [n]
  else if n < 0x800 then [0xC0 + n / 0x40, 0x80 + n % 0x40]
  else if n < 0x10000 then [0xE0 + n / 0x1000, 0x80 + n / 0x40 % 0x40, 0x80 + n % 0x40]
  else [0xF0 + n / 0x40000, 0x80 + n / 0x1000 % 0x40, 0x80 + n / 0x40 % 0x40, 0x80 + n % 0x40]

/-- UTF-8 bytes of a string: Python's `value.encode()`. -/
def encode (s : String) : List Nat :=
  (s.data.map utf8EncodeChar).flatten

/-- `s.startswith(p)` on strings, computed on the character lists. -/
def strStartsWith (s p : String) : Bool :=
  List.isPrefixOf p.data s.data

/-- `s.endswith(p)` on strings, computed on the character lists. -/
def strEndsWith (s p : String) : Bool :=
  List.isSuffixOf p.data s.data

/-- POSIX `os.path.join(a, b)`: an absolute `b` discards `a`; otherwise the
parts are glued with exactly one separator added when `a` does not already
end in one. -/
def osPathJoin (a b : String) : String :=
  if strStartsWith b "/" then b
  else if a == "" || strEndsWith a "/" then a ++ b
  else a ++ "/" ++ b

/-- POSIX `os.path.dirname(p)`: everything up to the final slash, with
trailing slashes stripped unless the head consists only of slashes. -/
def dirname (p : String) : String :=
  let head := (p.data.reverse.dropWhile (fun c => c != '/')).reverse
  if head.all (fun c => c == '/') then String.mk head
  else String.mk (head.reverse.dropWhile (fun c => c == '/')).reverse

/-- POSIX `pathlib.Path(p).is_absolute()`. -/
def pathIsAbsolute (p : String) : Bool :=
  strStartsWith p "/"

/-- The filesystem state: an association from absolute file paths to their
byte contents (first binding wins, so prepending overwrites), plus the set of
directories that exist. -/
structure FS where
  files : List (String × List Nat)
  dirs : List String

/-- Content of the file at `path`, if one exists. -/
def fsLookup (fs : FS) (path : String) : Option (List Nat) :=
  fs.files.lookup path

/-- Record a directory as existing; a directory that already exists is left
alone (`exist_ok=True`). -/
def insertDir (d : String) (ds : List String) : List String :=
  if ds.contains d then ds else d :: ds

/-- One step of `os.makedirs`: record the directory `d` and recurse into its
parent, with fuel bounding the parent chain. -/
def makedirsAux : Nat → String → List String → List String
  | 0, _, ds => ds
  | fuel + 1, d, ds =>
    if dirname d == d || dirname d == "" then insertDir d ds
    else makedirsAux fuel (dirname d) (insertDir d ds)

/-- `os.makedirs(d, exist_ok=True)`: creates `d` and all missing ancestors;
a directory that already exists is left alone. -/
def makedirs (d : String) (ds : List String) : List String :=
  makedirsAux (d.length + 1) d ds

/-- `FileManager._save_to_disk(path, value)`: `os.makedirs(os.path.dirname(path),
exist_ok=True)` followed by writing `value.encode()` to `path` in binary mode. -/
def saveToDisk (fs : FS) (path : String) (value : String) : FS :=
  { files := (path, encode value) :: fs.files
    dirs := makedirs (dirname path) fs.dirs }

/-- Modelled from the spec: `FileLoader` (`griptape.loaders`), absent from
`src/`.  Per the spec it is the external collaborator performing the "actual
... file loading": it resolves the given POSIX path against its `workdir`,
returns an artifact carrying the raw bytes of the file, and raises
`FileNotFoundError` when no file exists at the resolved path. -/
def fileLoaderLoad (fs : FS) (workdir path : String) : Except PyErr Artifact :=
  match fsLookup fs (osPathJoin workdir path) with
  | some bytes => .ok (.blob bytes)
  | none => .error (.fileNotFound path)

/-- The `FileManager` tool: holds the validated absolute work directory. -/
structure FileManager where
  workdir : String

/-- The `workdir` attrs validator: raises `ValueError` when the work
directory is not an absolute path. -/
def validate_workdir (workdir : String) : Except PyErr Unit :=
  if pathIsAbsolute workdir then .ok () else .error (.valueError "workdir has to be absolute absolute")

/-- Construction of a `FileManager`: attrs runs the `workdir` validator once,
at `__init__` time, before the instance exists. -/
def mkFileManager (workdir : String) : Except PyErr FileManager :=
  match validate_workdir workdir with
  | .ok _ => .ok ⟨workdir⟩
  | .error e => .error e

/-- The loop body of `FileManager.load_files_from_disk`: each path is loaded
inside a `try`; a `FileNotFoundError` or any other exception ends the loop
immediately with an `ErrorArtifact`, discarding `acc`. -/
def loadFilesLoop (fs : FS) (workdir : String) : List String → List Artifact → Artifact
  | [], acc => .list acc
  | p :: rest, acc =>
    match fileLoaderLoad fs workdir p with
    | .ok a => loadFilesLoop fs workdir rest (acc ++ [a])
    | .error (.fileNotFound _) => .error ("file in path `" ++ p ++ "` not found")
    | .error e => .error ("error loading file: " ++ pyErrStr e)

/-- `FileManager.load_files_from_disk(params)`: builds a `ListArtifact` from
the loaded files, or returns the first failure as an `ErrorArtifact`. -/
def FileManager.load_files_from_disk (fm : FileManager) (fs : FS) (paths : List String) : Artifact :=
  loadFilesLoop fs fm.workdir paths []

/-- `FileManager.save_content_to_file(params)`: joins the work directory with
the given path, writes the content there, and reports success with an
`InfoArtifact`. -/
def FileManager.save_content_to_file (fm : FileManager) (fs : FS) (path content : String) :
    FS × Artifact :=
  (saveToDisk fs (osPathJoin fm.workdir path) content, .info "saved successfully")

/-- An artifact held in a memory namespace: `a.name` and `a.value`. -/
structure MemArtifact where
  name : String
  value : String

/-- Modelled from the spec: the memory store (external collaborator, absent
from `src/`); `load_artifacts(namespace)` returns the artifacts stored under
the namespace. -/
structure Memory where
  load_artifacts : String → List MemArtifact

/-- `FileManager.save_memory_artifacts_to_disk(params)`: `findMem` stands for
the inherited `self.find_input_memory(memory_name)`.  A missing memory or an
empty namespace yields an `ErrorArtifact`; a single artifact is written to
`workdir/dir_name/file_name`; several artifacts are each written to
`workdir/dir_name/{name}-{file_name}`. -/
def FileManager.save_memory_artifacts_to_disk (fm : FileManager)
    (findMem : String → Option Memory) (fs : FS)
    (memory_name artifact_namespace dir_name file_name : String) : FS × Artifact :=
  match findMem memory_name with
  | some memory =>
    match memory.load_artifacts artifact_namespace with
    | [] => (fs, .error "no artifacts found")
    | [a] =>
      (saveToDisk fs (osPathJoin (osPathJoin fm.workdir dir_name) file_name) a.value,
       .info "saved successfully")
    | artifacts =>
      (artifacts.foldl
        (fun s a =>
          saveToDisk s (osPathJoin (osPathJoin fm.workdir dir_name) (a.name ++ "-" ++ file_name))
            a.value)
        fs,
       .info "saved successfully")
  | none => (fs, .error "memory not found")

/-- The injected `BaseTextStorageDriver` (external collaborator): `save`
stores a text and returns its storage key, threading the driver's internal
state `σ`; `query_record` and `summarize_record` answer about a stored
record.  Each call may raise (`Except.error`) or return an artifact. -/
structure TextStorageDriver (σ : Type) where
  save : σ → String → Except PyErr (String × σ)
  query_record : String → String → Except PyErr Artifact
  summarize_record : String → Except PyErr Artifact

/-- `TextManagerRamp.search_record(value)`: returns
`self.driver.query_record(value["id"], value["query"])` with no exception
handling of its own. -/
def TextManagerRamp.search_record {σ : Type} (driver : TextStorageDriver σ)
    (rid query : String) : Except PyErr Artifact :=
  driver.query_record rid query

/-- `TextManagerRamp.summarize_record(value)`: returns
`self.driver.summarize_record(value)` with no exception handling of its own. -/
def TextManagerRamp.summarize_record {σ : Type} (driver : TextStorageDriver σ)
    (rid : String) : Except PyErr Artifact :=
  driver.summarize_record rid

/-- `TextManagerRamp.process_output(tool_activity, value)`: a `TextArtifact`
is saved to the driver and replaced by a `TextArtifact` holding the rendered
`ramps/storage.j2` template; anything else is returned unchanged.  `render`
stands for the external Jinja template applied to `storage_name`, `tool_name`,
`activity_name` and `key`. -/
def TextManagerRamp.process_output {σ : Type} (driver : TextStorageDriver σ)
    (render : String → String → String → String → String)
    (storage_name tool_name activity_name : String)
    (value : Artifact) (s : σ) : Except PyErr (Artifact × σ) :=
  match value with
  | .text t =>
    match driver.save s t with
    | .ok (key, s') => .ok (.text (render storage_name tool_name activity_name key), s')
    | .error e => .error e
  | v => .ok (v, s)

/-- A driver whose every operation raises, used to observe exception
propagation through the ramp's methods. -/
def failingDriver : TextStorageDriver Unit where
  save := fun _ _ => .error (.other "boom")
  query_record := fun _ _ => .error (.other "boom")
  summarize_record := fun _ => .error (.other "boom")

/-- A well-behaved driver with a counter as internal state: `save` always
hands out the key `"k"` and bumps the counter. -/
def countingDriver : TextStorageDriver Nat where
  save := fun n _ => .ok ("k", n + 1)
  query_record := fun _ _ => .ok (.text "answer")
  summarize_record := fun _ => .ok (.text "summary")

/-- A sample memory artifact. -/
def sampleArtifactA : MemArtifact := ⟨"n1", "v1"⟩

/-- Another sample memory artifact. -/
def sampleArtifactB : MemArtifact := ⟨"n2", "v2"⟩

/-- A sample memory holding zero, one or two artifacts depending on the
namespace asked for. -/
def sampleMemory : Memory :=
  ⟨fun ns =>
    if ns = "empty" then []
    else if ns = "one" then [sampleArtifactA]
    else [sampleArtifactA, sampleArtifactB]⟩

/-- A memory lookup knowing only the memory named `"mem"`. -/
def findSampleMemory : String → Option Memory :=
  fun mn => if mn = "mem" then some sampleMemory else none

/-! ## Helper lemmas -/

/-- Writing a file makes its content readable at the written path. -/
theorem fsLookup_saveToDisk_self (fs : FS) (p v : String) :
    fsLookup (saveToDisk fs p v) p = some (encode v) := by
  simp [fsLookup, saveToDisk, List.lookup]

/-- Writing a file never deletes an existing one. -/
theorem fsLookup_saveToDisk_isSome (fs : FS) (p v k : String)
    (h : (fsLookup fs k).isSome = true) :
    (fsLookup (saveToDisk fs p v) k).isSome = true := by
  simp only [fsLookup, saveToDisk, List.lookup]
  cases hpk : k == p
  · simp only [hpk]
    exact h
  · simp only [hpk, Option.isSome_some]

/-- `insertDir` keeps every directory that was already there. -/
theorem mem_insertDir_of_mem (d x : String) (ds : List String) (h : x ∈ ds) :
    x ∈ insertDir d ds := by
  unfold insertDir
  split
  · exact h
  · exact List.mem_cons_of_mem d h

/-- `insertDir` makes the inserted directory present. -/
theorem mem_insertDir_self (d : String) (ds : List String) : d ∈ insertDir d ds := by
  unfold insertDir
  split
  · next h => simpa using h
  · exact List.mem_cons_self _ _

/-- `makedirsAux` never removes a directory. -/
theorem mem_makedirsAux_of_mem (fuel : Nat) (d x : String) (ds : List String)
    (h : x ∈ ds) : x ∈ makedirsAux fuel d ds := by
  induction fuel generalizing d ds with
  | zero => simpa [makedirsAux] using h
  | succ n ih =>
    simp only [makedirsAux]
    split
    · exact mem_insertDir_of_mem d x ds h
    · exact ih (dirname d) (insertDir d ds) (mem_insertDir_of_mem d x ds h)

/-- After `os.makedirs(d, exist_ok=True)` the directory `d` exists. -/
theorem mem_makedirs_self (d : String) (ds : List String) : d ∈ makedirs d ds := by
  unfold makedirs makedirsAux
  split
  · exact mem_insertDir_self d ds
  · exact mem_makedirsAux_of_mem _ _ _ _ (mem_insertDir_self d ds)

/-- If some requested path is missing, the load loop ends in an
`ErrorArtifact`, whatever was accumulated so far. -/
theorem loadFilesLoop_error_of_missing (fs : FS) (wd p : String) (paths : List String)
    (hmem : p ∈ paths) (hmiss : fsLookup fs (osPathJoin wd p) = none) :
    ∀ acc : List Artifact, ∃ m, loadFilesLoop fs wd paths acc = Artifact.error m := by
  induction paths with
  | nil => cases hmem
  | cons q rest ih =>
    intro acc
    simp only [loadFilesLoop]
    cases hq : fileLoaderLoad fs wd q with
    | ok a =>
      rcases List.mem_cons.mp hmem with rfl | hmem'
      · exfalso
        unfold fileLoaderLoad at hq
        rw [hmiss] at hq
        cases hq
      · exact ih hmem' (acc ++ [a])
    | error e =>
      cases e <;> exact ⟨_, rfl⟩

/-- The load loop walks the paths in order: with every earlier path present
and `p` missing, it returns the not-found `ErrorArtifact` for `p`, discarding
the accumulator and ignoring the remaining paths. -/
theorem loadFilesLoop_first_failure (fs : FS) (wd p : String) (pre post : List String)
    (hpre : ∀ q ∈ pre, (fsLookup fs (osPathJoin wd q)).isSome = true)
    (hmiss : fsLookup fs (osPathJoin wd p) = none) :
    ∀ acc : List Artifact,
      loadFilesLoop fs wd (pre ++ p :: post) acc =
        Artifact.error ("file in path `" ++ p ++ "` not found") := by
  induction pre with
  | nil =>
    intro acc
    simp only [List.nil_append, loadFilesLoop, fileLoaderLoad, hmiss]
  | cons q rest ih =>
    intro acc
    have hq := hpre q (List.mem_cons_self q rest)
    obtain ⟨bytes, hb⟩ := Option.isSome_iff_exists.mp hq
    simp only [List.cons_append, loadFilesLoop, fileLoaderLoad, hb]
    exact ih (fun r hr => hpre r (List.mem_cons_of_mem q hr)) (acc ++ [Artifact.blob bytes])

/-- Folding artifact writes over a list never deletes an existing file. -/
theorem fsLookup_foldl_save_isSome (path : MemArtifact → String) (l : List MemArtifact) :
    ∀ (fs : FS) (k : String), (fsLookup fs k).isSome = true →
      (fsLookup (l.foldl (fun s a => saveToDisk s (path a) a.value) fs) k).isSome = true := by
  induction l with
  | nil => intro fs k h; simpa using h
  | cons a rest ih =>
    intro fs k h
    exact ih (saveToDisk fs (path a) a.value) k (fsLookup_saveToDisk_isSome fs (path a) a.value k h)

/-- Folding artifact writes over a list leaves every listed artifact's target
path present in the resulting filesystem. -/
theorem fsLookup_foldl_save_mem (path : MemArtifact → String) (l : List MemArtifact) :
    ∀ (fs : FS) (b : MemArtifact), b ∈ l →
      (fsLookup (l.foldl (fun s a => saveToDisk s (path a) a.value) fs) (path b)).isSome = true := by
  induction l with
  | nil => intro fs b hb; cases hb
  | cons a rest ih =>
    intro fs b hb
    rcases List.mem_cons.mp hb with rfl | hb'
    · refine fsLookup_foldl_save_isSome path rest _ _ ?_
      rw [fsLookup_saveToDisk_self]
      rfl
    · exact ih _ b hb'

/-- `a` is a prefix of `a ++ b` as strings. -/
theorem strStartsWith_append (a b : String) : strStartsWith (a ++ b) a = true := by
  simp [strStartsWith, List.isPrefixOf_iff_prefix, String.data_append, List.prefix_append]

/-- The string starts-with relation is transitive. -/
theorem strStartsWith_trans (s t u : String)
    (h1 : strStartsWith s t = true) (h2 : strStartsWith t u = true) :
    strStartsWith s u = true := by
  rw [strStartsWith, List.isPrefixOf_iff_prefix] at h1 h2 ⊢
  exact h2.trans h1

/-- Joining a non-absolute component keeps the base as a prefix. -/
theorem osPathJoin_startsWith_base (a b : String) (hb : strStartsWith b "/" = false) :
    strStartsWith (osPathJoin a b) a = true := by
  unfold osPathJoin
  rw [hb]
  simp only [Bool.false_eq_true, if_false]
  split
  · exact strStartsWith_append a b
  · have h : a.data <+: ((a ++ "/") ++ b).data := by
      rw [String.data_append, String.data_append, List.append_assoc]
      exact List.prefix_append _ _
    rw [strStartsWith, List.isPrefixOf_iff_prefix]
    exact h

/-! ## Claim theorems -/

/-- C1: for every absolute work directory `w`, relative path `p` and content
`c`, `save_content_to_file` reports success and a subsequent
`load_files_from_disk` on `[p]` yields a `ListArtifact` whose single element
carries exactly the UTF-8 bytes of `c`. -/
theorem save_load_roundtrip (w p c : String) (fs : FS)
    (hw : pathIsAbsolute w = true) (hp : strStartsWith p "/" = false) :
    (FileManager.save_content_to_file ⟨w⟩ fs p c).2 = Artifact.info "saved successfully" ∧
    FileManager.load_files_from_disk ⟨w⟩ (FileManager.save_content_to_file ⟨w⟩ fs p c).1 [p] =
      Artifact.list [Artifact.blob (encode c)] := by
  refine ⟨rfl, ?_⟩
  simp only [FileManager.load_files_from_disk, FileManager.save_content_to_file, loadFilesLoop,
    fileLoaderLoad, fsLookup_saveToDisk_self, List.nil_append]

/-- Witness for C1 at a concrete work directory, path and content. -/
theorem save_load_roundtrip_witness :
    pathIsAbsolute "/work" = true ∧ strStartsWith "notes/a.txt" "/" = false ∧
    ((FileManager.save_content_to_file ⟨"/work"⟩ ⟨[], []⟩ "notes/a.txt" "hello").2 =
        Artifact.info "saved successfully" ∧
      FileManager.load_files_from_disk ⟨"/work"⟩
          (FileManager.save_content_to_file ⟨"/work"⟩ ⟨[], []⟩ "notes/a.txt" "hello").1
          ["notes/a.txt"] =
        Artifact.list [Artifact.blob (encode "hello")]) :=
  ⟨by decide, by decide,
    save_load_roundtrip "/work" "notes/a.txt" "hello" ⟨[], []⟩ (by decide) (by decide)⟩

/-- C2 counterexample: `TextManagerRamp.search_record` has no exception
handler, so a driver that raises makes the raised exception propagate out of
the adapter method instead of being converted to an `ErrorArtifact`. -/
theorem search_record_exception_escapes :
    TextManagerRamp.search_record failingDriver "r1" "anything" =
      Except.error (PyErr.other "boom") ∧
    (TextManagerRamp.search_record failingDriver "r1" "anything").isOk = false :=
  ⟨rfl, rfl⟩

/-- C2 amended: `FileManager.load_files_from_disk` converts a failing load
into an `ErrorArtifact`, but `TextManagerRamp.search_record` and
`TextManagerRamp.summarize_record` have no handler and let a raising driver's
exception propagate unchanged to the caller. -/
theorem error_conversion_split (σ : Type) (d : TextStorageDriver σ)
    (fm : FileManager) (fs : FS) (paths : List String) (p rid q : String) (e e' : PyErr)
    (hmem : p ∈ paths) (hmiss : fsLookup fs (osPathJoin fm.workdir p) = none)
    (hq : d.query_record rid q = Except.error e)
    (hs : d.summarize_record rid = Except.error e') :
    (fm.load_files_from_disk fs paths).isError = true ∧
    TextManagerRamp.search_record d rid q = Except.error e ∧
    TextManagerRamp.summarize_record d rid = Except.error e' := by
  refine ⟨?_, hq, hs⟩
  obtain ⟨m, hm⟩ := loadFilesLoop_error_of_missing fs fm.workdir p paths hmem hmiss []
  simp only [FileManager.load_files_from_disk, hm, Artifact.isError]

/-- Witness for the amended C2 at a concrete raising driver and a concrete
missing file. -/
theorem error_conversion_split_witness :
    ("a.txt" ∈ ["a.txt"]) ∧
    fsLookup ⟨[], []⟩ (osPathJoin "/w" "a.txt") = none ∧
    ((FileManager.load_files_from_disk ⟨"/w"⟩ ⟨[], []⟩ ["a.txt"]).isError = true ∧
      TextManagerRamp.search_record failingDriver "r1" "q" = Except.error (PyErr.other "boom") ∧
      TextManagerRamp.summarize_record failingDriver "r1" = Except.error (PyErr.other "boom")) :=
  ⟨List.mem_cons_self _ _, rfl,
    error_conversion_split Unit failingDriver ⟨"/w"⟩ ⟨[], []⟩ ["a.txt"] "a.txt" "r1" "q"
      (PyErr.other "boom") (PyErr.other "boom")
      (List.mem_cons_self _ _) rfl rfl rfl⟩

/-- C3: loading a list of paths containing one that names no existing file
returns an `ErrorArtifact`; the method's value type shows no exception
reaches the caller. -/
theorem load_missing_path_yields_error (fm : FileManager) (fs : FS)
    (paths : List String) (p : String)
    (hmem : p ∈ paths) (hmiss : fsLookup fs (osPathJoin fm.workdir p) = none) :
    ∃ m, fm.load_files_from_disk fs paths = Artifact.error m := by
  simpa only [FileManager.load_files_from_disk] using
    loadFilesLoop_error_of_missing fs fm.workdir p paths hmem hmiss []

/-- Witness for C3 at a concrete missing path. -/
theorem load_missing_path_yields_error_witness :
    ("missing.txt" ∈ ["missing.txt"]) ∧
    fsLookup ⟨[], []⟩ (osPathJoin "/w" "missing.txt") = none ∧
    (∃ m, FileManager.load_files_from_disk ⟨"/w"⟩ ⟨[], []⟩ ["missing.txt"] = Artifact.error m) :=
  ⟨List.mem_cons_self _ _, rfl,
    load_missing_path_yields_error ⟨"/w"⟩ ⟨[], []⟩ ["missing.txt"] "missing.txt"
      (List.mem_cons_self _ _) rfl⟩

/-- C4: constructing a `FileManager` raises the validator's `ValueError`
exactly when the work directory is not absolute, and succeeds (yielding the
instance) when it is. -/
theorem workdir_validated_iff_absolute (w : String) :
    (mkFileManager w = Except.error (PyErr.valueError "workdir has to be absolute absolute") ↔
      pathIsAbsolute w = false) ∧
    (pathIsAbsolute w = true → mkFileManager w = Except.ok ⟨w⟩) := by
  unfold mkFileManager validate_workdir
  cases h : pathIsAbsolute w <;> simp [h]

/-- Witness for C4: an absolute work directory constructs, a relative one
raises the `ValueError`. -/
theorem workdir_validated_iff_absolute_witness :
    pathIsAbsolute "/tmp" = true ∧
    mkFileManager "/tmp" = Except.ok ⟨"/tmp"⟩ ∧
    mkFileManager "rel/dir" =
      Except.error (PyErr.valueError "workdir has to be absolute absolute") :=
  ⟨by decide, (workdir_validated_iff_absolute "/tmp").2 (by decide),
    (workdir_validated_iff_absolute "rel/dir").1.mpr (by decide)⟩

/-- C5 counterexample: with work directory `/work` and the path parameter
`/etc/passwd`, `save_content_to_file` writes the file at `/etc/passwd`
itself — `os.path.join` discards the work directory for an absolute path —
so the write is not confined to the work directory. -/
theorem save_escapes_workdir_on_absolute_path :
    (FileManager.save_content_to_file ⟨"/work"⟩ ⟨[], []⟩ "/etc/passwd" "secret").1.files =
      [("/etc/passwd", encode "secret")] ∧
    strStartsWith "/etc/passwd" "/work" = false :=
  ⟨by decide, by decide⟩

/-- C5 amended: for a relative path parameter `p` (and relative `dir_name` /
`file_name`), the file written by `save_content_to_file` is exactly at
`os.path.join(w, p)`, which lies under the work directory `w`; the join
targeted by `save_memory_artifacts_to_disk` likewise lies under `w`. -/
theorem saves_confined_for_relative_paths (w p c dn fn : String) (fs : FS)
    (hw : pathIsAbsolute w = true) (hp : strStartsWith p "/" = false)
    (hd : strStartsWith dn "/" = false) (hf : strStartsWith fn "/" = false) :
    (FileManager.save_content_to_file ⟨w⟩ fs p c).1.files =
      (osPathJoin w p, encode c) :: fs.files ∧
    strStartsWith (osPathJoin w p) w = true ∧
    strStartsWith (osPathJoin (osPathJoin w dn) fn) w = true := by
  refine ⟨rfl, osPathJoin_startsWith_base w p hp, ?_⟩
  exact strStartsWith_trans _ _ _ (osPathJoin_startsWith_base (osPathJoin w dn) fn hf)
    (osPathJoin_startsWith_base w dn hd)

/-- Witness for the amended C5 at concrete relative paths. -/
theorem saves_confined_for_relative_paths_witness :
    pathIsAbsolute "/work" = true ∧ strStartsWith "a/b.txt" "/" = false ∧
    strStartsWith "out" "/" = false ∧ strStartsWith "r.txt" "/" = false ∧
    ((FileManager.save_content_to_file ⟨"/work"⟩ ⟨[], []⟩ "a/b.txt" "c").1.files =
        (osPathJoin "/work" "a/b.txt", encode "c") :: ([] : List (String × List Nat)) ∧
      strStartsWith (osPathJoin "/work" "a/b.txt") "/work" = true ∧
      strStartsWith (osPathJoin (osPathJoin "/work" "out") "r.txt") "/work" = true) :=
  ⟨by decide, by decide, by decide, by decide,
    saves_confined_for_relative_paths "/work" "a/b.txt" "c" "out" "r.txt" ⟨[], []⟩
      (by decide) (by decide) (by decide) (by decide)⟩

/-- C6: `process_output` passes any non-text artifact through unchanged
(driver state included), and turns a `TextArtifact` into a new `TextArtifact`
holding the rendered template applied to the key under which the driver
saved the text. -/
theorem process_output_dispatch (σ : Type) (d : TextStorageDriver σ)
    (render : String → String → String → String → String)
    (rn tn an : String) (v : Artifact) (t k : String) (s s' : σ)
    (hv : v.isText = false) (hsave : d.save s t = Except.ok (k, s')) :
    TextManagerRamp.process_output d render rn tn an v s = Except.ok (v, s) ∧
    TextManagerRamp.process_output d render rn tn an (.text t) s =
      Except.ok (.text (render rn tn an k), s') := by
  constructor
  · cases v <;> simp_all [TextManagerRamp.process_output, Artifact.isText]
  · simp [TextManagerRamp.process_output, hsave]

/-- Witness for C6: an `InfoArtifact` passes through unchanged while a
`TextArtifact` is replaced by the rendered reference embedding the key. -/
theorem process_output_dispatch_witness :
    (Artifact.info "x").isText = false ∧
    countingDriver.save 0 "body" = Except.ok ("k", 1) ∧
    (TextManagerRamp.process_output countingDriver
        (fun a b c d => a ++ "/" ++ b ++ "/" ++ c ++ "/" ++ d) "ramp" "tool" "act"
        (Artifact.info "x") 0 = Except.ok (Artifact.info "x", 0) ∧
      TextManagerRamp.process_output countingDriver
        (fun a b c d => a ++ "/" ++ b ++ "/" ++ c ++ "/" ++ d) "ramp" "tool" "act"
        (Artifact.text "body") 0 =
        Except.ok (Artifact.text ("ramp" ++ "/" ++ "tool" ++ "/" ++ "act" ++ "/" ++ "k"), 1)) :=
  ⟨rfl, rfl,
    process_output_dispatch Nat countingDriver
      (fun a b c d => a ++ "/" ++ b ++ "/" ++ c ++ "/" ++ d) "ramp" "tool" "act"
      (Artifact.info "x") "body" "k" 0 1 rfl rfl⟩

/-- C7: `search_record` returns exactly `driver.query_record(id, query)` and
`summarize_record` returns exactly `driver.summarize_record(id)`, for every
driver and inputs — raised exceptions and returned artifacts alike. -/
theorem search_and_summarize_delegate (σ : Type) (d : TextStorageDriver σ) (rid q : String) :
    TextManagerRamp.search_record d rid q = d.query_record rid q ∧
    TextManagerRamp.summarize_record d rid = d.summarize_record rid :=
  ⟨rfl, rfl⟩

/-- C8: both save operations create the written file's parent directory
(`os.makedirs` with `exist_ok=True`) and report success with an
`InfoArtifact`, whatever the starting filesystem; repeating the save into the
now-existing directory succeeds again. -/
theorem save_creates_directories (fm : FileManager) (fs : FS) (p c : String)
    (findMem : String → Option Memory) (m : Memory) (a : MemArtifact) (mn ns dn fn : String)
    (hmem : findMem mn = some m) (harts : m.load_artifacts ns = [a]) :
    (fm.save_content_to_file fs p c).2 = Artifact.info "saved successfully" ∧
    fsLookup (fm.save_content_to_file fs p c).1 (osPathJoin fm.workdir p) = some (encode c) ∧
    dirname (osPathJoin fm.workdir p) ∈ (fm.save_content_to_file fs p c).1.dirs ∧
    (fm.save_content_to_file (fm.save_content_to_file fs p c).1 p c).2 =
      Artifact.info "saved successfully" ∧
    (fm.save_memory_artifacts_to_disk findMem fs mn ns dn fn).2 =
      Artifact.info "saved successfully" ∧
    dirname (osPathJoin (osPathJoin fm.workdir dn) fn) ∈
      (fm.save_memory_artifacts_to_disk findMem fs mn ns dn fn).1.dirs := by
  refine ⟨rfl, fsLookup_saveToDisk_self _ _ _, mem_makedirs_self _ _, rfl, ?_, ?_⟩
  · simp [FileManager.save_memory_artifacts_to_disk, hmem, harts]
  · simp only [FileManager.save_memory_artifacts_to_disk, hmem, harts, saveToDisk]
    exact mem_makedirs_self _ _

/-- Witness for C8 at a concrete path with a missing parent directory and a
concrete one-artifact memory. -/
theorem save_creates_directories_witness :
    findSampleMemory "mem" = some sampleMemory ∧
    sampleMemory.load_artifacts "one" = [sampleArtifactA] ∧
    ((FileManager.save_content_to_file ⟨"/w"⟩ ⟨[], []⟩ "new/dir/f.txt" "c").2 =
        Artifact.info "saved successfully" ∧
      fsLookup (FileManager.save_content_to_file ⟨"/w"⟩ ⟨[], []⟩ "new/dir/f.txt" "c").1
          (osPathJoin "/w" "new/dir/f.txt") = some (encode "c") ∧
      dirname (osPathJoin "/w" "new/dir/f.txt") ∈
        (FileManager.save_content_to_file ⟨"/w"⟩ ⟨[], []⟩ "new/dir/f.txt" "c").1.dirs ∧
      (FileManager.save_content_to_file ⟨"/w"⟩
          (FileManager.save_content_to_file ⟨"/w"⟩ ⟨[], []⟩ "new/dir/f.txt" "c").1
          "new/dir/f.txt" "c").2 = Artifact.info "saved successfully" ∧
      (FileManager.save_memory_artifacts_to_disk ⟨"/w"⟩ findSampleMemory ⟨[], []⟩
          "mem" "one" "out" "r.txt").2 = Artifact.info "saved successfully" ∧
      dirname (osPathJoin (osPathJoin "/w" "out") "r.txt") ∈
        (FileManager.save_memory_artifacts_to_disk ⟨"/w"⟩ findSampleMemory ⟨[], []⟩
          "mem" "one" "out" "r.txt").1.dirs) :=
  ⟨rfl, rfl,
    save_creates_directories ⟨"/w"⟩ ⟨[], []⟩ "new/dir/f.txt" "c" findSampleMemory
      sampleMemory sampleArtifactA "mem" "one" "out" "r.txt" rfl rfl⟩

/-- C9: with every path before `p` loading fine and `p` missing,
`load_files_from_disk` returns the single not-found `ErrorArtifact` for `p`,
whatever comes after `p` — the artifacts already loaded are discarded and no
partial list is returned. -/
theorem load_stops_at_first_failure (fm : FileManager) (fs : FS)
    (pre post : List String) (p : String)
    (hpre : ∀ q ∈ pre, (fsLookup fs (osPathJoin fm.workdir q)).isSome = true)
    (hmiss : fsLookup fs (osPathJoin fm.workdir p) = none) :
    fm.load_files_from_disk fs (pre ++ p :: post) =
      Artifact.error ("file in path `" ++ p ++ "` not found") := by
  simpa only [FileManager.load_files_from_disk] using
    loadFilesLoop_first_failure fs fm.workdir p pre post hpre hmiss []

/-- Witness for C9: the first path exists, the second is missing, the third
would exist; the result is exactly the error for the second. -/
theorem load_stops_at_first_failure_witness :
    (∀ q ∈ ["ok.txt"],
      (fsLookup ⟨[(osPathJoin "/w" "ok.txt", encode "x"),
                  (osPathJoin "/w" "later.txt", encode "y")], []⟩
        (osPathJoin "/w" q)).isSome = true) ∧
    fsLookup ⟨[(osPathJoin "/w" "ok.txt", encode "x"),
               (osPathJoin "/w" "later.txt", encode "y")], []⟩
      (osPathJoin "/w" "gone.txt") = none ∧
    FileManager.load_files_from_disk ⟨"/w"⟩
        ⟨[(osPathJoin "/w" "ok.txt", encode "x"),
          (osPathJoin "/w" "later.txt", encode "y")], []⟩
        (["ok.txt"] ++ "gone.txt" :: ["later.txt"]) =
      Artifact.error ("file in path `" ++ "gone.txt" ++ "` not found") :=
  ⟨by decide, by decide,
    load_stops_at_first_failure ⟨"/w"⟩
      ⟨[(osPathJoin "/w" "ok.txt", encode "x"),
        (osPathJoin "/w" "later.txt", encode "y")], []⟩
      ["ok.txt"] ["later.txt"] "gone.txt" (by decide) (by decide)⟩

/-- C10: `save_memory_artifacts_to_disk` returns the memory-not-found error
when the memory is unknown; the no-artifacts error on an empty namespace;
writes a single artifact to `workdir/dir_name/file_name`; and writes each of
several artifacts to `workdir/dir_name/{name}-{file_name}` — reporting
success in both writing cases. -/
theorem save_memory_artifacts_cases :
    (∀ (fm : FileManager) (findMem : String → Option Memory) (fs : FS) (mn ns dn fn : String),
      findMem mn = none →
      fm.save_memory_artifacts_to_disk findMem fs mn ns dn fn =
        (fs, Artifact.error "memory not found")) ∧
    (∀ (fm : FileManager) (findMem : String → Option Memory) (fs : FS) (mn ns dn fn : String)
      (m : Memory), findMem mn = some m → m.load_artifacts ns = [] →
      fm.save_memory_artifacts_to_disk findMem fs mn ns dn fn =
        (fs, Artifact.error "no artifacts found")) ∧
    (∀ (fm : FileManager) (findMem : String → Option Memory) (fs : FS) (mn ns dn fn : String)
      (m : Memory) (a : MemArtifact), findMem mn = some m → m.load_artifacts ns = [a] →
      fm.save_memory_artifacts_to_disk findMem fs mn ns dn fn =
        (saveToDisk fs (osPathJoin (osPathJoin fm.workdir dn) fn) a.value,
          Artifact.info "saved successfully")) ∧
    (∀ (fm : FileManager) (findMem : String → Option Memory) (fs : FS) (mn ns dn fn : String)
      (m : Memory) (x y : MemArtifact) (rest : List MemArtifact),
      findMem mn = some m → m.load_artifacts ns = x :: y :: rest →
      (fm.save_memory_artifacts_to_disk findMem fs mn ns dn fn).2 =
        Artifact.info "saved successfully" ∧
      ∀ b ∈ x :: y :: rest,
        (fsLookup (fm.save_memory_artifacts_to_disk findMem fs mn ns dn fn).1
          (osPathJoin (osPathJoin fm.workdir dn) (b.name ++ "-" ++ fn))).isSome = true) := by
  refine ⟨?_, ?_, ?_, ?_⟩
  · intro fm findMem fs mn ns dn fn hmem
    simp [FileManager.save_memory_artifacts_to_disk, hmem]
  · intro fm findMem fs mn ns dn fn m hmem harts
    simp [FileManager.save_memory_artifacts_to_disk, hmem, harts]
  · intro fm findMem fs mn ns dn fn m a hmem harts
    simp [FileManager.save_memory_artifacts_to_disk, hmem, harts]
  · intro fm findMem fs mn ns dn fn m x y rest hmem harts
    constructor
    · simp [FileManager.save_memory_artifacts_to_disk, hmem, harts]
    · intro b hb
      simp only [FileManager.save_memory_artifacts_to_disk, hmem, harts]
      exact fsLookup_foldl_save_mem
        (fun a => osPathJoin (osPathJoin fm.workdir dn) (a.name ++ "-" ++ fn))
        (x :: y :: rest) fs b hb

/-- Witness for C10 exercising all four branches on concrete memories. -/
theorem save_memory_artifacts_cases_witness :
    findSampleMemory "nope" = none ∧
    findSampleMemory "mem" = some sampleMemory ∧
    sampleMemory.load_artifacts "empty" = [] ∧
    sampleMemory.load_artifacts "one" = [sampleArtifactA] ∧
    sampleMemory.load_artifacts "two" = [sampleArtifactA, sampleArtifactB] ∧
    FileManager.save_memory_artifacts_to_disk ⟨"/w"⟩ findSampleMemory ⟨[], []⟩
        "nope" "two" "out" "r.txt" = (⟨[], []⟩, Artifact.error "memory not found") ∧
    FileManager.save_memory_artifacts_to_disk ⟨"/w"⟩ findSampleMemory ⟨[], []⟩
        "mem" "empty" "out" "r.txt" = (⟨[], []⟩, Artifact.error "no artifacts found") ∧
    FileManager.save_memory_artifacts_to_disk ⟨"/w"⟩ findSampleMemory ⟨[], []⟩
        "mem" "one" "out" "r.txt" =
      (saveToDisk ⟨[], []⟩ (osPathJoin (osPathJoin "/w" "out") "r.txt") sampleArtifactA.value,
        Artifact.info "saved successfully") ∧
    (FileManager.save_memory_artifacts_to_disk ⟨"/w"⟩ findSampleMemory ⟨[], []⟩
        "mem" "two" "out" "r.txt").2 = Artifact.info "saved successfully" ∧
    (fsLookup (FileManager.save_memory_artifacts_to_disk ⟨"/w"⟩ findSampleMemory ⟨[], []⟩
        "mem" "two" "out" "r.txt").1
      (osPathJoin (osPathJoin "/w" "out") (sampleArtifactA.name ++ "-" ++ "r.txt"))).isSome =
      true :=
  ⟨rfl, rfl, rfl, rfl, rfl,
    save_memory_artifacts_cases.1 ⟨"/w"⟩ findSampleMemory ⟨[], []⟩ "nope" "two" "out" "r.txt" rfl,
    save_memory_artifacts_cases.2.1 ⟨"/w"⟩ findSampleMemory ⟨[], []⟩ "mem" "empty" "out" "r.txt"
      sampleMemory rfl rfl,
    save_memory_artifacts_cases.2.2.1 ⟨"/w"⟩ findSampleMemory ⟨[], []⟩ "mem" "one" "out" "r.txt"
      sampleMemory sampleArtifactA rfl rfl,
    (save_memory_artifacts_cases.2.2.2 ⟨"/w"⟩ findSampleMemory ⟨[], []⟩ "mem" "two" "out" "r.txt"
      sampleMemory sampleArtifactA sampleArtifactB [] rfl rfl).1,
    (save_memory_artifacts_cases.2.2.2 ⟨"/w"⟩ findSampleMemory ⟨[], []⟩ "mem" "two" "out" "r.txt"
      sampleMemory sampleArtifactA sampleArtifactB [] rfl rfl).2 sampleArtifactA
      (List.mem_cons_self _ _)⟩

end Griptape
